import Mathlib

/-!
Verification of the ViralSafe orchestration core.

Shallow embedding of the scoring, ensemble, caching, rate-limiting and
health-tracking code of `backend/performance_optimizer.py`,
`backend/enhanced_ai_analyzer.py`, `backend/virustotal.py` and
`backend/virustotal_service.py`, together with theorems settling the
spec claims about them.

Numeric values that Python holds as `float`/`int` are modelled as `ℚ`/`ℤ`;
Python `int(x)` (truncation toward zero) is modelled by `pyTrunc`.
-/

namespace ViralSafe


/-- Python `int(q)`: truncation toward zero. -/

def pyTrunc (q : ℚ) : ℤ := if 0 ≤ q then ⌊q⌋ else ⌈q⌉

/-! ## Passive health tracker — `VirusTotalAPI._update_health_from_scan`
    (`backend/virustotal.py`, lines 107–137) -/

inductive HealthStatus
  | unknown
  | not_configured
  | init_failed
  | connected
  | degraded
  | error
  deriving DecidableEq, Repr

/-- Model of `VirusTotalAPI.health_cache` (timestamps abstracted as ℚ instants). -/

structure HealthCache where
  status : HealthStatus
  last_check : Option ℚ
  last_successful_scan : Option ℚ
  consecutive_failures : ℕ
  total_scans : ℕ
  successful_scans : ℕ
  error_msg : Option String
  deriving DecidableEq, Repr

/-- Initial `health_cache` built in `VirusTotalAPI.__init__`. -/

def HealthCache.init : HealthCache :=
  { status := .unknown
    last_check := none
    last_successful_scan := none
    consecutive_failures := 0
    total_scans := 0
    successful_scans := 0
    error_msg := none }

/-- Embedding of `VirusTotalAPI._update_health_from_scan(success, error_msg)` at instant
`now`. Faithful to `backend/virustotal.py:107-137`: `last_check` and
`total_scans` are updated on every outcome; success resets the failure
streak and clears the stored error; failure increments the streak and sets
`status` to `error` at 3 consecutive failures, `degraded` below that. -/

def updateHealthFromScan (h : HealthCache) (success : Bool)
    (error_msg : Option String) (now : ℚ) : HealthCache :=
  let h := { h with last_check := some now, total_scans := h.total_scans + 1 }
  if success then
    { h with
        status := .connected
        last_successful_scan := some now
        successful_scans := h.successful_scans + 1
        consecutive_failures := 0
        error_msg := none }
  else
    let cf := h.consecutive_failures + 1
    { h with
        consecutive_failures := cf
        status := if cf ≥ 3 then .error else .degraded
        error_msg := match error_msg with
          | some m => some m
          | none => h.error_msg }

/-! ## Composite risk calculator —
    `PerformanceOptimizer._calculate_composite_score`
    (`backend/performance_optimizer.py`, lines 312–403) -/

/-- One entry of the `scan_results` dict handed to the composite scorer:
the key may be absent, present with an `"error"` key (the shape produced by
`_process_priority_results` for failed adapters), or present without one. -/

inductive SigResult (α : Type)
  | absent
  | errored
  | ok (payload : α)
  deriving DecidableEq, Repr

/-- Fields of an error-free `http_quick` entry that the scorer reads
(via `.get`, hence the `Option`s). -/

structure HttpData where
  status_code : Option ℤ
  response_time_ms : Option ℚ
  deriving DecidableEq, Repr

/-- Fields of an error-free `ai_analysis` entry that the scorer reads. -/

structure AiData where
  ai_threat_score : Option ℚ
  ai_confidence : Option ℚ
  deriving DecidableEq, Repr

/-- Fields of an error-free `security_headers` entry that the scorer reads. -/

structure HeadersData where
  security_score : Option ℚ
  deriving DecidableEq, Repr

/-- Fields of an error-free `content_lite` entry that the scorer reads. -/

structure ContentData where
  suspicious_keywords_count : Option ℤ
  has_iframes : Option Bool
  deriving DecidableEq, Repr

/-- Shape of a present `deep_scan` entry: either the
`{"status": "timeout", ...}` dict written by `_parallel_optimized_scan`
when the deep tier exceeds its 5 s deadline (it has no
`deep_scan_completed` key, which therefore defaults to `False`), or a
result dict whose `deep_scan_completed` value is `completed`. -/

inductive DeepEntry
  | timedOut
  | result (completed : Bool)
  deriving DecidableEq, Repr

/-- The `scan_results` dict as read by `_calculate_composite_score`.
For `deep_scan` only `deep_data.get("deep_scan_completed", False)` is read
(no `"error"` test); an `errored` or timed-out entry lacks the key and
defaults to `False`. -/

structure ScanResults where
  http_quick : SigResult HttpData
  ai_analysis : SigResult AiData
  security_headers : SigResult HeadersData
  content_lite : SigResult ContentData
  deep_scan : SigResult DeepEntry
  deriving DecidableEq, Repr

/-- Running `base_score` of `_calculate_composite_score` just before the
final clamping (lines 315–382), starting from the 85 baseline. -/

def baseScoreOf (r : ScanResults) : ℚ :=
  let base : ℚ := 85
  -- HTTP Analysis impact
  let base :=
    match r.http_quick with
    | .absent => base
    | .errored => base - 20
    | .ok d =>
        let base :=
          if d.status_code = some 200 then base + 5
          else if d.status_code.getD 0 ≥ 400 then base - 15
          else base
        if d.response_time_ms.getD 1000 > 3000 then base - 5 else base
  -- AI Analysis impact (high weight)
  let base :=
    match r.ai_analysis with
    | .absent => base
    | .errored => base
    | .ok d =>
        let ai_threat := d.ai_threat_score.getD 50
        base * (7 / 10) + (100 - ai_threat) * (3 / 10)
  -- Security Headers impact
  let base :=
    match r.security_headers with
    | .absent => base
    | .errored => base - 5
    | .ok d => base + (d.security_score.getD 50 - 50) * (2 / 10)
  -- Content Analysis impact
  let base :=
    match r.content_lite with
    | .absent => base
    | .errored => base
    | .ok d =>
        let base := if d.suspicious_keywords_count.getD 0 > 3 then base - 15 else base
        if d.has_iframes.getD false then base - 5 else base
  base

/-- Running `confidence` of `_calculate_composite_score` just before the
final clamping (lines 316–388), starting from 100. -/

def confidenceOf (r : ScanResults) : ℚ :=
  let conf : ℚ := 100
  let conf :=
    match r.http_quick with
    | .errored => conf - 15
    | _ => conf
  let conf :=
    match r.ai_analysis with
    | .absent => conf
    | .errored => conf - 10
    | .ok d => (conf + d.ai_confidence.getD 85) / 2
  -- Deep scan bonus (if available)
  match r.deep_scan with
  | .ok (.result true) => conf + 10
  | _ => conf

/-- The `risk_factors` list accumulated by `_calculate_composite_score`. -/

def riskFactorsOf (r : ScanResults) : List String :=
  (match r.http_quick with
   | .absent => []
   | .errored => ["HTTP connection failed"]
   | .ok d =>
       (if d.status_code ≠ some 200 ∧ d.status_code.getD 0 ≥ 400 then
          ["HTTP errors detected"] else []) ++
       (if d.response_time_ms.getD 1000 > 3000 then ["Slow response time"] else [])) ++
  (match r.ai_analysis with
   | .ok d =>
       if d.ai_threat_score.getD 50 > 70 then ["AI detected high threat level"]
       else if d.ai_threat_score.getD 50 < 30 then ["AI confirms low threat level"]
       else []
   | _ => []) ++
  (match r.security_headers with
   | .ok d => if d.security_score.getD 50 < 60 then
       ["Poor security headers configuration"] else []
   | _ => []) ++
  (match r.content_lite with
   | .ok d =>
       (if d.suspicious_keywords_count.getD 0 > 3 then
          ["Multiple suspicious keywords detected"] else []) ++
       (if d.has_iframes.getD false then ["Contains iframes (potential risk)"] else [])
   | _ => [])

/-- Embedding of `PerformanceOptimizer._calculate_trust_rating` (lines 482–497). -/

def calculateTrustRating (score : ℤ) (confidence : ℤ) : String :=
  let trust_value : ℚ := score * (7 / 10) + confidence * (3 / 10)
  if trust_value ≥ 95 then "FORTRESS"
  else if trust_value ≥ 85 then "SECURE"
  else if trust_value ≥ 70 then "CAUTION"
  else if trust_value ≥ 50 then "RISK"
  else "DANGER"

/-- The dict returned by `_calculate_composite_score`. -/

structure CompositeScore where
  final_score : ℤ
  confidence : ℤ
  trust_rating : String
  risk_factors : List String
  deriving DecidableEq, Repr

/-- Embedding of `PerformanceOptimizer._calculate_composite_score(scan_results)`
(lines 312–403): category adjustments followed by the final
normalization `max(0, min(100, int(base_score)))` and
`max(60, min(99, int(confidence)))`. -/

def calculateCompositeScore (r : ScanResults) : CompositeScore :=
  let final_score := max 0 (min 100 (pyTrunc (baseScoreOf r)))
  let final_confidence := max 60 (min 99 (pyTrunc (confidenceOf r)))
  { final_score := final_score
    confidence := final_confidence
    trust_rating := calculateTrustRating final_score final_confidence
    risk_factors := riskFactorsOf r }

/-- The `scan_results` dict in which every adapter entry is present but failed
(the shape `_process_priority_results` produces when every task errors). -/

def allFailedScan : ScanResults :=
  { http_quick := .errored
    ai_analysis := .errored
    security_headers := .errored
    content_lite := .errored
    deep_scan := .errored }

/-- The `scan_results` dict with every category missing entirely. -/

def allAbsentScan : ScanResults :=
  { http_quick := .absent
    ai_analysis := .absent
    security_headers := .absent
    content_lite := .absent
    deep_scan := .absent }

/-! ## Multi-AI ensemble — `EnhancedAIAnalyzer._ensemble_decision`
    (`backend/enhanced_ai_analyzer.py`, lines 243–310) -/

/-- One element of the `results` list handed to `_ensemble_decision`:
a provider name, the fields the ensemble reads (via `.get`, hence the
`Option`s), and whether the dict carries an `"error"` key. -/

structure AiRaw where
  provider : String
  threat_score : Option ℚ
  confidence : Option ℚ
  error : Bool
  deriving DecidableEq, Repr

/-- The `valid_results` list: the providers whose result dict has no `"error"` key
(line 249). -/

def validResults (rs : List AiRaw) : List AiRaw :=
  rs.filter (fun r => !r.error)

/-- The sum `total_weight = sum(self.providers[r["provider"]]["weight"] ...)`
(line 258); `w` is the provider-registry weight lookup. -/

def totalWeight (w : String → ℚ) (valid : List AiRaw) : ℚ :=
  (valid.map (fun r => w r.provider)).sum

/-- Accumulated `weighted_threat_score` before normalization (line 271),
with the source default of 50 for a missing `threat_score`. -/

def sumScoreW (w : String → ℚ) (valid : List AiRaw) : ℚ :=
  (valid.map (fun r => r.threat_score.getD 50 * w r.provider)).sum

/-- Accumulated `weighted_confidence` before normalization (line 272),
with the source default of 80 for a missing `confidence`. -/

def sumConfW (w : String → ℚ) (valid : List AiRaw) : ℚ :=
  (valid.map (fun r => r.confidence.getD 80 * w r.provider)).sum

/-- The normalized `weighted_confidence` (line 289), defined when the
weights of the successful providers have positive sum. -/

def normalizedConfidence (w : String → ℚ) (rs : List AiRaw) : ℚ :=
  sumConfW w (validResults rs) / totalWeight w (validResults rs)

/-- Fields of the dict returned by `multi_ai_analysis`/`_ensemble_decision`
that the claims are about (`providers_used` is absent from the fallback
dict, hence the `Option`). -/

structure AiAnalysis where
  ensemble : Bool
  threat_score : ℤ
  confidence : ℤ
  providers_used : Option ℕ
  fallback : Bool
  deriving DecidableEq, Repr

/-- Embedding of `EnhancedAIAnalyzer._fallback_analysis` (lines 312–322). -/

def fallbackAnalysis : AiAnalysis :=
  { ensemble := false
    threat_score := 45
    confidence := 70
    providers_used := none
    fallback := true }

/-- Embedding of `EnhancedAIAnalyzer._ensemble_decision(results)` (lines 243–310):
filter to error-free provider results, accumulate weight-scaled threat
scores and confidences, normalize by the total weight of the successful
providers when positive, truncate the threat score with `int(...)`, and
boost the confidence by the fixed factor 1.1 capped at 99. -/

def ensembleDecision (w : String → ℚ) (rs : List AiRaw) : AiAnalysis :=
  let valid := validResults rs
  if valid.isEmpty then fallbackAnalysis
  else
    let total_weight := totalWeight w valid
    let weighted_threat_score :=
      if total_weight > 0 then sumScoreW w valid / total_weight
      else sumScoreW w valid
    let weighted_confidence :=
      if total_weight > 0 then sumConfW w valid / total_weight
      else sumConfW w valid
    { ensemble := true
      threat_score := pyTrunc weighted_threat_score
      confidence := min 99 (pyTrunc (weighted_confidence * (11 / 10)))
      providers_used := some valid.length
      fallback := false }

/-- The provider-registry weight table of `EnhancedAIAnalyzer.__init__`
(lines 27–57): groq 0.5, anthropic 0.3, openai 0.2. -/

def registryWeight : String → ℚ := fun p =>
  if p = "groq" then 1 / 2
  else if p = "anthropic" then 3 / 10
  else if p = "openai" then 1 / 5
  else 0

/-- Two providers, weights 0.5 and 0.3, scores 80 and 40, both succeed. -/

def rsBothOk : List AiRaw :=
  [ { provider := "groq", threat_score := some 80, confidence := some 90, error := false }
  , { provider := "anthropic", threat_score := some 40, confidence := some 85, error := false } ]

/-- Same two providers, but the weight-0.3 provider failed. -/

def rsSecondFails : List AiRaw :=
  [ { provider := "groq", threat_score := some 80, confidence := some 90, error := false }
  , { provider := "anthropic", threat_score := some 40, confidence := some 85, error := true } ]

/-- A single successful provider reporting confidence 80. -/

def rsConf80 : List AiRaw :=
  [ { provider := "groq", threat_score := some 50, confidence := some 80, error := false } ]

/-- A single successful provider reporting confidence 20. -/

def rsConf20 : List AiRaw :=
  [ { provider := "groq", threat_score := some 50, confidence := some 20, error := false } ]

/-! ## Scan orchestrator — `PerformanceOptimizer._parallel_optimized_scan`
    (`backend/performance_optimizer.py`, lines 71–121).

The asyncio timing is abstracted into two booleans saying whether the
medium-priority gather exceeded its 3 s `wait_for` deadline and whether
the deep-scan gather exceeded its 5 s deadline; the per-adapter outcomes
(each adapter catches its own exceptions, and `gather` is called with
`return_exceptions=True`, so an adapter contributes an `errored` entry
rather than an exception) are passed in as `SigResult`s. The
high-priority gather has no tier deadline in the source, so it has no
timing flag. -/

/-- Tier deadline outcomes for one scan. -/

structure TierTiming where
  mediumExceeds : Bool
  deepExceeds : Bool
  deriving DecidableEq, Repr

/-- The exception that can escape `_parallel_optimized_scan`: the
`asyncio.TimeoutError` raised by the unguarded
`asyncio.wait_for(..., timeout=3.0)` of the medium tier (line 101). -/

inductive ScanError
  | timeoutError
  deriving DecidableEq, Repr

/-- Embedding of `PerformanceOptimizer._parallel_optimized_scan(url, options)`
restricted to its control flow (lines 71–121): the high-priority results
always land in `scan_results`; the medium tier is wrapped in a `wait_for`
with **no** `except` handler, so exceeding the 3 s deadline propagates a
`TimeoutError` out of the whole scan; the deep tier runs only when
`options.get("deep_scan", True)` and its `wait_for` **is** guarded, a
timeout being recorded as the `{"status": "timeout"}` entry. -/

def parallelOptimizedScan (deep_scan_option : Bool) (tm : TierTiming)
    (http : SigResult HttpData) (ai : SigResult AiData)
    (headers : SigResult HeadersData) (content : SigResult ContentData)
    (deep : SigResult DeepEntry) : Except ScanError ScanResults :=
  if tm.mediumExceeds then
    .error .timeoutError
  else
    let deepEntry : SigResult DeepEntry :=
      if deep_scan_option then
        if tm.deepExceeds then .ok .timedOut else deep
      else .absent
    .ok { http_quick := http
          ai_analysis := ai
          security_headers := headers
          content_lite := content
          deep_scan := deepEntry }

/-! ## Result cache — `PerformanceOptimizer._get_cached_result`,
    `_cache_result` and `ultra_fast_scan`
    (`backend/performance_optimizer.py`, lines 24–69 and 225–260).

`self.scan_cache` is a dict keyed by the md5 cache key; it is modelled as
an association list with at most one entry per key (dict overwrite is
modelled as remove-then-append; eviction and lookup are insensitive to
entry order, only to keys and timestamps). -/

/-- Constant `self.cache_ttl = 3600` (line 30). -/

def cache_ttl : ℚ := 3600

/-- Constant `self.max_cache_size = 1000` (line 31). -/

def max_cache_size : ℕ := 1000

/-- One stored cache value: `{"result": ..., "timestamp": time.time()}`. -/

structure CacheEntry (α : Type) where
  result : α
  timestamp : ℚ
  deriving DecidableEq, Repr

/-- The `scan_cache` dict. -/

def Cache (α : Type) : Type := List (String × CacheEntry α)

/-- Dict membership/indexing: first entry with the given key. -/

def lookupCache (st : Cache α) (k : String) : Option (CacheEntry α) :=
  (List.find? (fun p => p.1 == k) st).map Prod.snd

/-- Embedding of `PerformanceOptimizer._get_cached_result(cache_key)` at instant `now`
(lines 230–243): `None` on a missing key; on an entry older than the TTL,
delete it and return `None`; otherwise return the stored result. The
second component is the cache after the possible expiry deletion. -/

def getCachedResult (st : Cache α) (k : String) (now : ℚ) :
    Option α × Cache α :=
  match lookupCache st k with
  | none => (none, st)
  | some cached =>
      if now - cached.timestamp > cache_ttl then
        (none, List.filter (fun p => !(p.1 == k)) st)
      else
        (some cached.result, st)

/-- Size management of `_cache_result` (lines 249–253): when the cache
has reached `max_cache_size`, drop the 100 entries with the oldest
timestamps. -/

def evictOldest (st : Cache α) : Cache α :=
  if max_cache_size ≤ st.length then
    let sorted := st.mergeSort (fun a b => decide (a.2.timestamp ≤ b.2.timestamp))
    let oldKeys := (sorted.take 100).map Prod.fst
    List.filter (fun p => !(oldKeys.contains p.1)) st
  else st

/-- Embedding of `PerformanceOptimizer._cache_result(cache_key, result)` at instant
`now` (lines 245–260): evict if full, then store the result under the
key with the current timestamp (dict overwrite modelled as
remove-then-append). -/

def cacheResult (st : Cache α) (k : String) (r : α) (now : ℚ) : Cache α :=
  List.filter (fun p => !(p.1 == k)) (evictOldest st)
    ++ [(k, { result := r, timestamp := now })]

/-- The `performance` sub-dict keys that `ultra_fast_scan` writes. -/

structure Performance where
  cache_hit : Bool
  total_time_ms : ℤ
  deriving DecidableEq, Repr

/-- A scan result as returned by `ultra_fast_scan`: the verdict payload
(the entire output of `_parallel_optimized_scan`/`_compile_optimized_results`
apart from the two performance keys above) plus those keys. -/

structure UltraResult (α : Type) where
  payload : α
  performance : Performance
  deriving DecidableEq, Repr

/-- Embedding of `PerformanceOptimizer.ultra_fast_scan(url, scan_options)`
(lines 38–69), with the wall clock made explicit: `now` is the instant of
the cache probe, `nowStore` the instant `_cache_result` stamps a fresh
result, `hit_ms`/`miss_ms` the measured elapsed times written into the
returned performance dict, and `fresh` the payload that
`_parallel_optimized_scan` would compute on a miss. On a hit the code
mutates the two performance keys of the cached dict in place and returns it;
since every later hit overwrites those same two keys again before they
are read, the in-place write-back is modelled as a functional record
update. On a miss the result is cached (the stored alias carries the
`cache_hit=false` annotation written just after) and returned. -/

def ultraFastScan (st : Cache (UltraResult α)) (key : String)
    (now nowStore : ℚ) (hit_ms miss_ms : ℤ) (fresh : α) :
    UltraResult α × Cache (UltraResult α) :=
  match getCachedResult st key now with
  | (some cached, st1) =>
      ({ cached with
          performance := { cache_hit := true, total_time_ms := hit_ms } }, st1)
  | (none, st1) =>
      let result : UltraResult α :=
        { payload := fresh
          performance := { cache_hit := false, total_time_ms := miss_ms } }
      (result, cacheResult st1 key result nowStore)

/-! ## Rate limiters — `virustotal_service.RateLimiter.acquire`
    (`backend/virustotal_service.py`, lines 27–65) and
    `VirusTotalAPI._rate_limit_check` (`backend/virustotal.py`,
    lines 144–162). Wall-clock instants are explicit ℚ values; a
    coroutine sleeping for `w` resumes at `now + w`. -/

/-- Python `min(list)` over a nonempty list (`0` is a placeholder for the
empty list, on which Python would raise). -/

def listMin : List ℚ → ℚ
  | [] => 0
  | [a] => a
  | a :: b :: l => min a (listMin (b :: l))

/-- One day (`timedelta(days=1)`) in seconds. -/

def oneDay : ℚ := 86400

/-- State of a `virustotal_service.RateLimiter`. -/

structure RLState where
  max_requests : ℕ
  time_window : ℚ
  requests : List ℚ
  daily_requests : ℕ
  daily_reset : ℚ
  deriving DecidableEq, Repr

/-- Daily-counter reset at the top of `RateLimiter.acquire()`
(lines 41–44). -/

def resetDaily (st : RLState) (now : ℚ) : RLState :=
  if st.daily_reset ≤ now then
    { st with daily_requests := 0, daily_reset := now + oneDay }
  else st

/-- Embedding of `RateLimiter.acquire()` (lines 37–65) started at instant `now`, with
recursion fuel (the Python recursion `return await self.acquire()` after
the sleep): reset the daily counter when due; refuse at the 500-request
daily limit; prune timestamps outside the trailing window; when the
pruned count reaches `max_requests`, sleep
`time_window - (now - self.requests[0])` — with **no** added buffer —
and retry from the top at the resumed instant; otherwise record `now`
and admit. Returns (total time slept, final state, admitted?). -/

def acquireAux : ℕ → RLState → ℚ → ℚ × RLState × Bool
  | 0, st, _ => (0, st, false)
  | fuel + 1, st0, now =>
      let st := resetDaily st0 now
      if 500 ≤ st.daily_requests then (0, st, false)
      else
        let pruned := st.requests.filter (fun t => decide (now - st.time_window < t))
        if st.max_requests ≤ pruned.length then
          let wait := st.time_window - (now - pruned.headD 0)
          let r := acquireAux fuel { st with requests := pruned } (now + wait)
          (wait + r.1, r.2)
        else
          (0,
           { st with
              requests := pruned ++ [now]
              daily_requests := st.daily_requests + 1 },
           true)

/-- Entry point of `RateLimiter.acquire()`, with enough fuel for the pruned list to lose
its head on every retry round. -/

def acquire (st : RLState) (now : ℚ) : ℚ × RLState × Bool :=
  acquireAux (st.requests.length + 1) st now

/-- Embedding of `VirusTotalAPI._rate_limit_check()` at instant `now`
(lines 144–162): prune entries older than 60 s; when the pruned count
reaches `rate_limit`, sleep `60 - (now - min(times)) + 1` (a one-second
buffer) if positive — once, with **no** re-check afterwards — then append
the pre-sleep `now` and proceed. Returns (time slept, new
`request_times`). -/

def rateLimitCheck (request_times : List ℚ) (rate_limit : ℕ) (now : ℚ) :
    ℚ × List ℚ :=
  let pruned := request_times.filter (fun t => decide (now - t < 60))
  let wait :=
    if rate_limit ≤ pruned.length then
      let w := 60 - (now - listMin pruned) + 1
      if 0 < w then w else 0
    else 0
  (wait, pruned ++ [now])

/-- Four admitted calls at instants 0, 1, 2, 3 against the free-tier
configuration (limit 4 per 60 s window), with the daily counter far from
its limit; the 5th call arrives at instant 10. -/

def rlFourCalls : RLState :=
  { max_requests := 4
    time_window := 60
    requests := [0, 1, 2, 3]
    daily_requests := 4
    daily_reset := 86400 }

/-! ## Theorems settling the claims, with supporting lemmas -/

theorem pyTrunc_nonneg_eq_floor (q : ℚ) (h : 0 ≤ q) : pyTrunc q = ⌊q⌋ := by
  simp [pyTrunc, h]

/-- For a positive integer target, `pyTrunc q = k` pins `q` into `[k, k+1)`. -/

theorem pyTrunc_eq_pos_iff (q : ℚ) (k : ℤ) (hk : 0 < k) :
    pyTrunc q = k ↔ (k : ℚ) ≤ q ∧ q < k + 1 := by
  unfold pyTrunc
  by_cases h : 0 ≤ q
  · simp only [if_pos h]
    rw [Int.floor_eq_iff]
  · simp only [if_neg h]
    push_neg at h
    have hc : ⌈q⌉ ≤ 0 := by
      have hq : q ≤ ((0 : ℤ) : ℚ) := by exact_mod_cast h.le
      exact Int.ceil_le.mpr hq
    constructor
    · intro hck
      omega
    · intro ⟨h1, _⟩
      exfalso
      have hk' : (0 : ℚ) < (k : ℚ) := by exact_mod_cast hk
      linarith

/-- C1: For every scan target and every combination of scan options, the
composite verdict produced by the scoring path satisfies
`0 ≤ final_score ≤ 100` and `0 ≤ confidence ≤ 100` after clamping. -/

theorem composite_score_bounds (r : ScanResults) :
    0 ≤ (calculateCompositeScore r).final_score ∧
    (calculateCompositeScore r).final_score ≤ 100 ∧
    0 ≤ (calculateCompositeScore r).confidence ∧
    (calculateCompositeScore r).confidence ≤ 100 := by
  unfold calculateCompositeScore
  dsimp only
  refine ⟨?_, ?_, ?_, ?_⟩ <;> omega

/-- C10: the composite confidence is clamped into the narrower band
`[60, 99]`: never below 60, never above 99, in particular never 100. -/

theorem composite_confidence_band (r : ScanResults) :
    60 ≤ (calculateCompositeScore r).confidence ∧
    (calculateCompositeScore r).confidence ≤ 99 ∧
    (calculateCompositeScore r).confidence ≠ 100 := by
  unfold calculateCompositeScore
  dsimp only
  refine ⟨?_, ?_, ?_⟩ <;> omega

/-- C5: health-record evolution under real adapter outcomes
(`_update_health_from_scan`): a failure increments `consecutive_failures`
and sets `status` to `error` at 3 or more consecutive failures and to
`degraded` below that; a single success immediately sets
`status = connected` and `consecutive_failures = 0` regardless of the
prior streak; `total_scans` is incremented on every outcome. -/

theorem health_transitions (h : HealthCache) (e : Option String) (now : ℚ) :
    (updateHealthFromScan h false e now).consecutive_failures
        = h.consecutive_failures + 1 ∧
    (updateHealthFromScan h false e now).status
        = (if h.consecutive_failures + 1 ≥ 3 then HealthStatus.error
           else HealthStatus.degraded) ∧
    (updateHealthFromScan h true e now).status = HealthStatus.connected ∧
    (updateHealthFromScan h true e now).consecutive_failures = 0 ∧
    (∀ s : Bool, (updateHealthFromScan h s e now).total_scans = h.total_scans + 1) := by
  refine ⟨rfl, rfl, rfl, rfl, ?_⟩
  intro s
  cases s <;> rfl

/-- C3 counterexample: with every adapter failed, the composite
calculator does not return the unmodified baseline of 85 — it applies the
HTTP-failure and headers-failure penalties and returns 60; and with every
category absent it returns confidence 99 (the maximum of the clamp band),
not a low confidence. -/

theorem composite_all_failed_not_baseline :
    (calculateCompositeScore allFailedScan).final_score ≠ 85 ∧
    (calculateCompositeScore allFailedScan).final_score = 60 ∧
    (calculateCompositeScore allAbsentScan).confidence = 99 := by
  refine ⟨?_, ?_, ?_⟩ <;>
    norm_num [calculateCompositeScore, baseScoreOf, confidenceOf,
      allFailedScan, allAbsentScan, pyTrunc]

/-- C3 amended: the composite calculation never raises, and when every
adapter result is an error it still returns a verdict — but with the
failure penalties applied (final score 60 = 85 − 20 − 5 and confidence
75 = 100 − 15 − 10), and the returned record carries no fallback marker;
when every category is wholly absent it returns the untouched baseline 85
with the clamped maximal confidence 99. -/

theorem composite_all_failed_verdict :
    calculateCompositeScore allFailedScan =
      { final_score := 60
        confidence := 75
        trust_rating := "RISK"
        risk_factors := ["HTTP connection failed"] } ∧
    calculateCompositeScore allAbsentScan =
      { final_score := 85
        confidence := 99
        trust_rating := "SECURE"
        risk_factors := [] } := by
  constructor <;>
  · rw [CompositeScore.mk.injEq]
    norm_num [calculateCompositeScore, baseScoreOf, confidenceOf, riskFactorsOf,
      calculateTrustRating, allFailedScan, allAbsentScan, pyTrunc]

/-- C2: the ensemble threat score is the weighted sum of the successful
scores of the successful providers divided by the sum of their weights only (then
truncated by Python `int`); in particular with weights 0.5/0.3 and scores
80/40 both succeeding it is 65, and with the weight-0.3 provider failed
it is 80. -/

theorem ensemble_score_renormalized :
    (∀ (w : String → ℚ) (rs : List AiRaw),
        validResults rs ≠ [] →
        0 < totalWeight w (validResults rs) →
        (ensembleDecision w rs).threat_score
          = pyTrunc (sumScoreW w (validResults rs)
              / totalWeight w (validResults rs))) ∧
    (ensembleDecision registryWeight rsBothOk).threat_score = 65 ∧
    (ensembleDecision registryWeight rsSecondFails).threat_score = 80 := by
  refine ⟨?_, ?_, ?_⟩
  · intro w rs hne hw
    unfold ensembleDecision
    rw [if_neg (by simpa [List.isEmpty_iff] using hne)]
    simp only [if_pos hw]
  · simp [ensembleDecision, validResults, totalWeight, sumScoreW,
      registryWeight, rsBothOk]
    norm_num [pyTrunc]
  · simp [ensembleDecision, validResults, totalWeight, sumScoreW,
      registryWeight, rsSecondFails]
    norm_num [pyTrunc]

/-- Witness for C2: the general re-normalization equation instantiated at
the concrete two-provider input. -/

theorem ensemble_score_renormalized_witness :
    (ensembleDecision registryWeight rsBothOk).threat_score
      = pyTrunc (sumScoreW registryWeight (validResults rsBothOk)
          / totalWeight registryWeight (validResults rsBothOk)) :=
  ensemble_score_renormalized.1 registryWeight rsBothOk
    (by simp [validResults, rsBothOk])
    (by simp [validResults, totalWeight, registryWeight, rsBothOk]
        norm_num)

/-- C9 counterexample: the ensemble confidence is not the weight-normalized
average of provider confidences plus a bonus proportional to the number of
contributing providers — no proportionality constant `c` fits the code:
with one provider at confidence 80 the code yields 88 (forcing
`8 ≤ c < 9`), with one provider at confidence 20 it yields 22 (forcing
`2 ≤ c < 3`). -/

theorem ensemble_confidence_bonus_not_proportional :
    ¬ ∃ c : ℚ, ∀ (w : String → ℚ) (rs : List AiRaw),
        validResults rs ≠ [] →
        0 < totalWeight w (validResults rs) →
        (ensembleDecision w rs).confidence
          = min 99 (pyTrunc (normalizedConfidence w rs
              + c * ((validResults rs).length : ℚ))) := by
  rintro ⟨c, hc⟩
  have h80 := hc registryWeight rsConf80
    (by simp [validResults, rsConf80])
    (by simp [validResults, totalWeight, registryWeight, rsConf80])
  have h20 := hc registryWeight rsConf20
    (by simp [validResults, rsConf20])
    (by simp [validResults, totalWeight, registryWeight, rsConf20])
  have e80 : (ensembleDecision registryWeight rsConf80).confidence = 88 := by
    simp [ensembleDecision, validResults, totalWeight, sumConfW,
      registryWeight, rsConf80]
    norm_num [pyTrunc]
  have e20 : (ensembleDecision registryWeight rsConf20).confidence = 22 := by
    simp [ensembleDecision, validResults, totalWeight, sumConfW,
      registryWeight, rsConf20]
    norm_num [pyTrunc]
  have n80 : normalizedConfidence registryWeight rsConf80 = 80 := by
    simp [normalizedConfidence, validResults, totalWeight, sumConfW,
      registryWeight, rsConf80]
  have n20 : normalizedConfidence registryWeight rsConf20 = 20 := by
    simp [normalizedConfidence, validResults, totalWeight, sumConfW,
      registryWeight, rsConf20]
  have l80 : ((validResults rsConf80).length : ℚ) = 1 := by
    simp [validResults, rsConf80]
  have l20 : ((validResults rsConf20).length : ℚ) = 1 := by
    simp [validResults, rsConf20]
  rw [e80, n80, l80, mul_one] at h80
  rw [e20, n20, l20, mul_one] at h20
  have t80 : pyTrunc (80 + c) = 88 := by omega
  have t20 : pyTrunc (20 + c) = 22 := by omega
  have b80 := (pyTrunc_eq_pos_iff (80 + c) 88 (by norm_num)).mp t80
  have b20 := (pyTrunc_eq_pos_iff (20 + c) 22 (by norm_num)).mp t20
  push_cast at b80 b20
  obtain ⟨u1, u2⟩ := b80
  obtain ⟨v1, _⟩ := b20
  linarith

/-- C9 amended: for every non-empty set of successful provider results
with positive total weight, the ensemble confidence equals the
weight-normalized average of provider confidences boosted by the fixed
multiplicative factor 1.1 — independent of the number of contributing
providers — and capped at 99. -/

theorem ensemble_confidence_fixed_boost (w : String → ℚ) (rs : List AiRaw)
    (hne : validResults rs ≠ [])
    (hw : 0 < totalWeight w (validResults rs)) :
    (ensembleDecision w rs).confidence
      = min 99 (pyTrunc (normalizedConfidence w rs * (11 / 10))) ∧
    (ensembleDecision w rs).confidence ≤ 99 := by
  unfold ensembleDecision normalizedConfidence
  rw [if_neg (by simpa [List.isEmpty_iff] using hne)]
  simp only [if_pos hw]
  exact ⟨trivial, min_le_left _ _⟩

/-- Witness for the amended C9 theorem at the concrete two-provider
input. -/

theorem ensemble_confidence_fixed_boost_witness :
    (ensembleDecision registryWeight rsBothOk).confidence
      = min 99 (pyTrunc (normalizedConfidence registryWeight rsBothOk * (11 / 10))) ∧
    (ensembleDecision registryWeight rsBothOk).confidence ≤ 99 :=
  ensemble_confidence_fixed_boost registryWeight rsBothOk
    (by simp [validResults, rsBothOk])
    (by simp [validResults, totalWeight, registryWeight, rsBothOk]
        norm_num)

/-- C4 counterexample: a scan whose medium-priority (Tier2) gather
exceeds its 3 s deadline does not proceed to a verdict — the unhandled
`TimeoutError` aborts the whole scan, even though every adapter of every
tier produced a perfectly good result. -/

theorem tier2_timeout_aborts_scan :
    parallelOptimizedScan true
      { mediumExceeds := true, deepExceeds := false }
      (.ok { status_code := some 200, response_time_ms := some 50 })
      (.ok { ai_threat_score := some 10, ai_confidence := some 90 })
      (.ok { security_score := some 100 })
      (.ok { suspicious_keywords_count := some 0, has_iframes := some false })
      (.ok (.result true))
      = .error .timeoutError := rfl

/-- C4 amended: only the deep tier (Tier3) has a guarded deadline — when
the medium tier meets its deadline the scan always returns a verdict in
which every adapter entry is passed through unaffected, and a deep tier
that overruns its deadline is recorded as the `{"status": "timeout"}`
entry without aborting the scan; but a medium (Tier2) tier timeout
propagates and aborts the scan, and the high tier has no deadline at
all. -/

theorem tier3_timeout_recorded (deep_scan_option : Bool) (tm : TierTiming)
    (http : SigResult HttpData) (ai : SigResult AiData)
    (headers : SigResult HeadersData) (content : SigResult ContentData)
    (deep : SigResult DeepEntry)
    (hm : tm.mediumExceeds = false) :
    parallelOptimizedScan deep_scan_option tm http ai headers content deep
      = .ok { http_quick := http
              ai_analysis := ai
              security_headers := headers
              content_lite := content
              deep_scan :=
                if deep_scan_option then
                  if tm.deepExceeds then .ok .timedOut else deep
                else .absent } := by
  unfold parallelOptimizedScan
  rw [hm]
  simp

/-- Witness for the amended C4 theorem: deep tier overruns, medium tier
does not — the verdict is produced with the deep entry recorded as timed
out and the other entries untouched. -/

theorem tier3_timeout_recorded_witness :
    parallelOptimizedScan true
      { mediumExceeds := false, deepExceeds := true }
      (.ok { status_code := some 200, response_time_ms := some 50 })
      (.ok { ai_threat_score := some 10, ai_confidence := some 90 })
      (.errored) (.errored)
      (.ok (.result true))
      = .ok { http_quick := .ok { status_code := some 200, response_time_ms := some 50 }
              ai_analysis := .ok { ai_threat_score := some 10, ai_confidence := some 90 }
              security_headers := .errored
              content_lite := .errored
              deep_scan := .ok .timedOut } := by
  rw [tier3_timeout_recorded _ _ _ _ _ _ _ rfl]
  rfl

/-- C7: a cache lookup returns `None` when the key is absent or when the
time since the entry was stored exceeds the TTL, and a result is served
only while `now ≤ stored-at + ttl`. -/

theorem cache_get_respects_ttl (α : Type) (st : Cache α) (k : String) (now : ℚ) :
    (lookupCache st k = none → (getCachedResult st k now).1 = none) ∧
    (∀ e : CacheEntry α, lookupCache st k = some e →
        now - e.timestamp > cache_ttl → (getCachedResult st k now).1 = none) ∧
    (∀ r : α, (getCachedResult st k now).1 = some r →
        ∃ e : CacheEntry α, lookupCache st k = some e ∧
          r = e.result ∧ now ≤ e.timestamp + cache_ttl) := by
  refine ⟨?_, ?_, ?_⟩
  · intro h
    simp [getCachedResult, h]
  · intro e he hexp
    simp [getCachedResult, he, if_pos hexp]
  · intro r hr
    unfold getCachedResult at hr
    cases he : lookupCache st k with
    | none => rw [he] at hr; exact absurd hr (by simp)
    | some e =>
        rw [he] at hr
        dsimp only at hr
        by_cases hexp : now - e.timestamp > cache_ttl
        · rw [if_pos hexp] at hr
          exact absurd hr (by simp)
        · rw [if_neg hexp] at hr
          refine ⟨e, rfl, ?_, by linarith [not_lt.mp hexp]⟩
          simpa using hr.symm

/-- Witness for C7 at a concrete cache: an absent key yields `None`, an
expired entry yields `None`, and a fresh entry is served. -/

theorem cache_get_respects_ttl_witness :
    (getCachedResult ([] : Cache ℤ) "k" 0).1 = none ∧
    (getCachedResult ([("k", { result := (7 : ℤ), timestamp := 0 })] : Cache ℤ)
        "k" 5000).1 = none := by
  exact ⟨(cache_get_respects_ttl ℤ [] "k" 0).1 rfl,
    (cache_get_respects_ttl ℤ _ "k" 5000).2.1 { result := (7 : ℤ), timestamp := 0 }
      rfl (by norm_num [cache_ttl])⟩

/-- A `find?` for a key never succeeds on a list filtered to exclude it. -/

theorem find?_filter_ne_none (l : List (String × CacheEntry α)) (k : String) :
    List.find? (fun p => p.1 == k) (List.filter (fun p => !(p.1 == k)) l) = none := by
  induction l with
  | nil => rfl
  | cons a l ih =>
      cases h : (a.1 == k) with
      | true => simp [List.filter_cons, h, ih]
      | false => simp [List.filter_cons, h, List.find?_cons, ih]

/-- A freshly stored entry is found under its key, whatever eviction
removed. -/

theorem lookupCache_cacheResult (st : Cache α) (k : String) (r : α) (now : ℚ) :
    lookupCache (cacheResult st k r now) k
      = some { result := r, timestamp := now } := by
  unfold cacheResult lookupCache
  rw [List.find?_append, find?_filter_ne_none]
  simp

/-- C8: for every target and options (i.e. every cache key), if the key
is initially absent, the first scan is marked `cache_hit = false`, and a
second scan within the TTL window is marked `cache_hit = true` and
returns the identical verdict payload — whatever a recomputation
(`fresh2`) would have produced. -/

theorem cache_idempotent_scan (α : Type) (st : Cache (UltraResult α))
    (key : String) (now1 nowStore now2 nowStore2 : ℚ)
    (hit1 miss1 hit2 miss2 : ℤ) (fresh fresh2 : α)
    (habs : lookupCache st key = none)
    (hfresh : now2 - nowStore ≤ cache_ttl) :
    (ultraFastScan st key now1 nowStore hit1 miss1 fresh).1.performance.cache_hit
        = false ∧
    (ultraFastScan (ultraFastScan st key now1 nowStore hit1 miss1 fresh).2
        key now2 nowStore2 hit2 miss2 fresh2).1.performance.cache_hit = true ∧
    (ultraFastScan (ultraFastScan st key now1 nowStore hit1 miss1 fresh).2
        key now2 nowStore2 hit2 miss2 fresh2).1.payload
      = (ultraFastScan st key now1 nowStore hit1 miss1 fresh).1.payload := by
  have hget1 : getCachedResult st key now1 = (none, st) := by
    simp [getCachedResult, habs]
  have h1 : ultraFastScan st key now1 nowStore hit1 miss1 fresh
      = ({ payload := fresh
           performance := { cache_hit := false, total_time_ms := miss1 } },
         cacheResult st key
           { payload := fresh
             performance := { cache_hit := false, total_time_ms := miss1 } }
           nowStore) := by
    unfold ultraFastScan
    rw [hget1]
  have hlook := lookupCache_cacheResult st key
    ({ payload := fresh
       performance := { cache_hit := false, total_time_ms := miss1 } } : UltraResult α)
    nowStore
  have hget2 : getCachedResult
      (cacheResult st key
        { payload := fresh
          performance := { cache_hit := false, total_time_ms := miss1 } } nowStore)
      key now2
      = (some { payload := fresh
                performance := { cache_hit := false, total_time_ms := miss1 } },
         cacheResult st key
           { payload := fresh
             performance := { cache_hit := false, total_time_ms := miss1 } } nowStore) := by
    unfold getCachedResult
    rw [hlook]
    dsimp only
    rw [if_neg (by simpa using not_lt.mpr (by linarith : now2 - nowStore ≤ cache_ttl))]
  refine ⟨by rw [h1], ?_, ?_⟩ <;>
  · rw [h1]
    dsimp only
    unfold ultraFastScan
    rw [hget2]

/-- Witness for C8: concrete first and second scan against an initially
empty cache, one second apart. -/

theorem cache_idempotent_scan_witness :
    (ultraFastScan ([] : Cache (UltraResult ℤ)) "k" 0 1 5 900 42).1.performance.cache_hit
        = false ∧
    (ultraFastScan (ultraFastScan ([] : Cache (UltraResult ℤ)) "k" 0 1 5 900 42).2
        "k" 2 3 7 901 43).1.performance.cache_hit = true ∧
    (ultraFastScan (ultraFastScan ([] : Cache (UltraResult ℤ)) "k" 0 1 5 900 42).2
        "k" 2 3 7 901 43).1.payload
      = (ultraFastScan ([] : Cache (UltraResult ℤ)) "k" 0 1 5 900 42).1.payload :=
  cache_idempotent_scan ℤ [] "k" 0 1 2 3 5 900 7 901 42 43
    rfl (by norm_num [cache_ttl])

theorem resetDaily_max_requests (st : RLState) (now : ℚ) :
    (resetDaily st now).max_requests = st.max_requests := by
  unfold resetDaily
  split <;> rfl

theorem resetDaily_requests (st : RLState) (now : ℚ) :
    (resetDaily st now).requests = st.requests := by
  unfold resetDaily
  split <;> rfl

theorem resetDaily_time_window (st : RLState) (now : ℚ) :
    (resetDaily st now).time_window = st.time_window := by
  unfold resetDaily
  split <;> rfl

/-- The total sleep accumulated by `acquire` is never negative (each
round sleeps a positive duration, because the head it waits on survived
the pruning). -/

theorem acquireAux_fst_nonneg (fuel : ℕ) :
    ∀ (st0 : RLState) (now : ℚ), 1 ≤ st0.max_requests →
      0 ≤ (acquireAux fuel st0 now).1 := by
  induction fuel with
  | zero =>
      intro st0 now _
      simp [acquireAux]
  | succ n ih =>
      intro st0 now hmax
      simp only [acquireAux]
      set st := resetDaily st0 now with hst
      have hm : 1 ≤ st.max_requests := by
        rw [hst, resetDaily_max_requests]
        exact hmax
      split_ifs with h5 hover
      · simp
      · dsimp only
        cases hc : st.requests.filter (fun t => decide (now - st.time_window < t)) with
        | nil =>
            exfalso
            rw [hc] at hover
            simp at hover
            omega
        | cons a l =>
            have ha : a ∈ st.requests.filter (fun t => decide (now - st.time_window < t)) := by
              rw [hc]
              exact List.mem_cons_self a l
            have ha2 : now - st.time_window < a := by
              have := (List.mem_filter.mp ha).2
              simpa using this
            simp only [List.headD_cons]
            have hrest := ih { st with requests := a :: l }
              (now + (st.time_window - (now - a))) (by simpa using hm)
            have hw : 0 < st.time_window - (now - a) := by linarith
            linarith
      · simp

/-- C6 counterexample: `RateLimiter.acquire` suspends the over-limit 5th
call for exactly `window − (now − oldest)` = 60 − (10 − 0) = 50 time
units — there is no added buffer, small or otherwise, contradicting the
claimed `window_length − (now − oldest_timestamp)` *plus a small
buffer*. -/

theorem rate_limiter_no_buffer :
    (acquire rlFourCalls 10).1 = 60 - (10 - 0) ∧
    ∀ b : ℚ, 0 < b → (acquire rlFourCalls 10).1 ≠ 60 - (10 - 0) + b := by
  have h : (acquire rlFourCalls 10).1 = 50 := by
    norm_num [acquire, acquireAux, rlFourCalls, resetDaily, oneDay, List.filter]
  constructor
  · rw [h]
    norm_num
  · intro b hb hcontra
    rw [h] at hcontra
    norm_num at hcontra
    linarith

/-- C6 amended: the two sliding-window limiters split the claimed
behaviour between them. `VirusTotalAPI._rate_limit_check` prunes, then
suspends an over-limit caller for `60 − (now − oldest) + 1` (a one-second
buffer) but performs the check only once, appending the pre-sleep `now`
and proceeding without re-checking; `RateLimiter.acquire` prunes, then
suspends for exactly `window − (now − requests[0])` with no buffer and
re-checks recursively, so its total suspension is at least
`window − (now − oldest)`. In both, with limit 4 per 60 time units, the
5th rapid call is delayed by at least 60 minus the time elapsed since
the 1st call. -/

theorem rate_limiter_semantics :
    (∀ (rt : List ℚ) (limit : ℕ) (now : ℚ),
        limit ≤ (rt.filter (fun t => decide (now - t < 60))).length →
        0 < 60 - (now - listMin (rt.filter (fun t => decide (now - t < 60)))) + 1 →
        (rateLimitCheck rt limit now).1
            = 60 - (now - listMin (rt.filter (fun t => decide (now - t < 60)))) + 1 ∧
        (rateLimitCheck rt limit now).2
            = rt.filter (fun t => decide (now - t < 60)) ++ [now]) ∧
    (∀ (st : RLState) (now : ℚ),
        1 ≤ st.max_requests →
        now < st.daily_reset →
        st.daily_requests < 500 →
        st.max_requests
            ≤ (st.requests.filter (fun t => decide (now - st.time_window < t))).length →
        st.time_window
            - (now - (st.requests.filter
                (fun t => decide (now - st.time_window < t))).headD 0)
          ≤ (acquire st now).1) ∧
    (rateLimitCheck [0, 1, 2, 3] 4 10).1 ≥ 60 - (10 - 0) ∧
    (acquire rlFourCalls 10).1 ≥ 60 - (10 - 0) := by
  refine ⟨?_, ?_, ?_, ?_⟩
  · intro rt limit now hover hpos
    simp only [rateLimitCheck]
    rw [if_pos hover, if_pos hpos]
    simp
  · intro st now hmax hdr hdaily hover
    have hreset : resetDaily st now = st := by
      unfold resetDaily
      rw [if_neg (not_le.mpr hdr)]
    unfold acquire
    simp only [acquireAux, hreset]
    rw [if_neg (by omega : ¬ 500 ≤ st.daily_requests), if_pos hover]
    have hrest := acquireAux_fst_nonneg st.requests.length
      { st with requests :=
          st.requests.filter (fun t => decide (now - st.time_window < t)) }
      (now + (st.time_window
        - (now - (st.requests.filter
            (fun t => decide (now - st.time_window < t))).headD 0)))
      (by simpa using hmax)
    dsimp only
    linarith
  · have h : (rateLimitCheck [0, 1, 2, 3] 4 10).1 = 51 := by
      norm_num [rateLimitCheck, listMin, List.filter]
    rw [h]
    norm_num
  · have h : (acquire rlFourCalls 10).1 = 50 := by
      norm_num [acquire, acquireAux, rlFourCalls, resetDaily, oneDay, List.filter]
    rw [h]
    norm_num

/-- Witness for the amended C6 theorem: both limiter facts instantiated
at the concrete 5th-call scenario. -/

theorem rate_limiter_semantics_witness :
    (rateLimitCheck [0, 1, 2, 3] 4 10).1
        = 60 - (10 - listMin (([0, 1, 2, 3] : List ℚ).filter
            (fun t => decide ((10 : ℚ) - t < 60)))) + 1 ∧
    rlFourCalls.time_window
        - (10 - (rlFourCalls.requests.filter
            (fun t => decide ((10 : ℚ) - rlFourCalls.time_window < t))).headD 0)
      ≤ (acquire rlFourCalls 10).1 :=
  ⟨(rate_limiter_semantics.1 [0, 1, 2, 3] 4 10
      (by norm_num [List.filter])
      (by norm_num [listMin, List.filter])).1,
   rate_limiter_semantics.2.1 rlFourCalls 10
      (by norm_num [rlFourCalls])
      (by norm_num [rlFourCalls])
      (by norm_num [rlFourCalls])
      (by norm_num [rlFourCalls, List.filter])⟩

end ViralSafe
